/-
Verification development for the bd-news-rss aggregation pipeline.

The three data endpoints (news `src/app/api/rss/route.ts`, product
`src/app/api/product/route.ts`, video `src/app/api/videos/route.ts`) are
shallowly embedded as pure Lean functions.  Network fetches are modelled as
outcome values (failure constructors vs. a parsed payload), the JavaScript
`Date` parser and `localeCompare` collation are modelled as oracle function
parameters, and `Array.prototype.sort` (stable per the ECMAScript spec) is
modelled as a stable insertion sort driven by the source's comparator.
-/
import Mathlib

set_option linter.unusedVariables false
set_option linter.unnecessarySeqFocus false

/-! ### JavaScript string helpers -/

/-- Whitespace recognised by the model for `String.prototype.trim`, `\s` in
regular expressions and `parseInt` leading-space skipping (restricted to the
common ASCII whitespace characters). -/
def isSpaceJS (c : Char) : Bool :=
  c == ' ' || c == '\t' || c == '\n' || c == '\r'

/-- `String.prototype.trim`. -/
def jsTrim (s : String) : String :=
  String.mk (((s.toList.dropWhile isSpaceJS).reverse.dropWhile isSpaceJS).reverse)

/-- Does `pre` occur at the head of `l`? -/
def listStarts : List Char → List Char → Bool
  | [], _ => true
  | _ :: _, [] => false
  | a :: as, b :: bs => a == b && listStarts as bs

/-- Does `needle` occur contiguously inside `l`? -/
def listHasSub (needle : List Char) : List Char → Bool
  | [] => needle.isEmpty
  | b :: bs => listStarts needle (b :: bs) || listHasSub needle bs

/-- `String.prototype.includes`. -/
def jsIncludes (s sub : String) : Bool :=
  listHasSub sub.toList s.toList

/-- JavaScript `a || b` on strings: the empty string is falsy. -/
def jsOr (a b : String) : String :=
  if a = "" then b else a

/-- `String.prototype.substring(0, n)` (JS counts UTF-16 code units; all
characters appearing in this development are in the basic plane, where the
counts agree with Lean characters). -/
def strTake (s : String) (n : Nat) : String :=
  String.mk (s.toList.take n)

/-- `Array.prototype.slice(s, e)` for non-negative `s ≤ e`. -/
def jsSlice (l : List α) (s e : Nat) : List α :=
  (l.drop s).take (e - s)

/-! ### Integer parsing (`Number.parseInt` and `Number`) -/

def digitVal (c : Char) : Nat := c.toNat - '0'.toNat

def digitsToNat (ds : List Char) : Nat :=
  ds.foldl (fun acc c => acc * 10 + digitVal c) 0

def isHexDigitJS (c : Char) : Bool :=
  c.isDigit || ('a' ≤ c && c ≤ 'f') || ('A' ≤ c && c ≤ 'F')

def hexDigitVal (c : Char) : Nat :=
  if c.isDigit then c.toNat - '0'.toNat
  else if 'a' ≤ c && c ≤ 'f' then c.toNat - 'a'.toNat + 10
  else c.toNat - 'A'.toNat + 10

def hexToNat (ds : List Char) : Nat :=
  ds.foldl (fun acc c => acc * 16 + hexDigitVal c) 0

/-- The digit-scanning core of `Number.parseInt` with no radix argument:
a `0x`/`0X` prefix switches to hexadecimal, otherwise the longest leading
run of decimal digits is taken; no digits means `NaN` (`none`). -/
def parseIntCore (cs : List Char) : Option Nat :=
  match cs with
  | '0' :: 'x' :: rest =>
    let ds := rest.takeWhile isHexDigitJS
    if ds.isEmpty then none else some (hexToNat ds)
  | '0' :: 'X' :: rest =>
    let ds := rest.takeWhile isHexDigitJS
    if ds.isEmpty then none else some (hexToNat ds)
  | _ =>
    let ds := cs.takeWhile Char.isDigit
    if ds.isEmpty then none else some (digitsToNat ds)

/-- `Number.parseInt(s)`: skip leading whitespace, optional sign, then the
longest numeric prefix; `none` models `NaN`. -/
def parseIntJS (s : String) : Option Int :=
  match s.toList.dropWhile isSpaceJS with
  | '-' :: rest => (parseIntCore rest).map (fun n => -(n : Int))
  | '+' :: rest => (parseIntCore rest).map (fun n => (n : Int))
  | rest => (parseIntCore rest).map (fun n => (n : Int))

/-- `Number(s)` restricted to the integral fragment the routes rely on: the
trimmed empty string converts to `0`, an optionally signed run of decimal
digits converts to that integer, and every other input (`NaN` as well as
fractional, exponent, hexadecimal or infinite results, none of which yield a
usable integral index) is collapsed to `none`. -/
def jsNumberInt (s : String) : Option Int :=
  let t := jsTrim s
  if t = "" then some 0
  else
    match t.toList with
    | '-' :: ds =>
      if !ds.isEmpty && ds.all Char.isDigit then some (-(digitsToNat ds : Int)) else none
    | '+' :: ds =>
      if !ds.isEmpty && ds.all Char.isDigit then some ((digitsToNat ds : Int)) else none
    | ds =>
      if !ds.isEmpty && ds.all Char.isDigit then some ((digitsToNat ds : Int)) else none

/-! ### Stable sort (model of `Array.prototype.sort`)

ECMAScript requires `Array.prototype.sort` to be stable; with a consistent
comparator every stable sort produces the same list, so the model fixes a
stable insertion sort keeping an element before the first element it does not
have to follow (`cmp ≤ 0` means "keep the relative order"). -/

def insertLe (le : α → α → Bool) (x : α) : List α → List α
  | [] => [x]
  | y :: ys => if le x y then x :: y :: ys else y :: insertLe le x ys

def sortByLe (le : α → α → Bool) : List α → List α
  | [] => []
  | x :: xs => insertLe le x (sortByLe le xs)

/-! ### Query-parameter layer

`searchParams.get` yields `null` (modelled `none`) for an absent parameter;
`x || d` falls back on `null` and on the empty string. -/

def queryOrDefault (q : Option String) (d : String) : String :=
  match q with
  | none => d
  | some s => if s = "" then d else s

/-- news route: `Number.parseInt(searchParams.get("offset") || "0")`. -/
def newsOffsetArg (q : Option String) : Option Int :=
  parseIntJS (queryOrDefault q "0")

/-- news route: `Number.parseInt(searchParams.get("limit") || "30")`. -/
def newsLimitArg (q : Option String) : Option Int :=
  parseIntJS (queryOrDefault q "30")

/-- product route: `Number.parseInt(searchParams.get("offset") || "0")`. -/
def productOffsetArg (q : Option String) : Option Int :=
  parseIntJS (queryOrDefault q "0")

/-- product route: `Number.parseInt(searchParams.get("limit") || "20")`. -/
def productLimitArg (q : Option String) : Option Int :=
  parseIntJS (queryOrDefault q "20")

/-- videos route: `Number(searchParams.get("offset") || 0)`; `null` and `""`
are falsy, so both fall back to the number `0` directly. -/
def videoOffsetArg (q : Option String) : Option Int :=
  match q with
  | none => some 0
  | some s => if s = "" then some 0 else jsNumberInt s

/-- videos route: `Number(searchParams.get("limit") || 30)`. -/
def videoLimitArg (q : Option String) : Option Int :=
  match q with
  | none => some 30
  | some s => if s = "" then some 30 else jsNumberInt s

/-! ### Response shape -/

/-- `{ items|products: [...], hasMore: boolean, total: number }`. -/
structure ApiPage (α : Type) where
  items : List α
  hasMore : Bool
  total : Nat
  deriving DecidableEq, Repr

/-! ### News pipeline (`src/app/api/rss/route.ts`) -/

structure NewsItem where
  title : String
  link : String
  description : String
  pubDate : String
  guid : String
  image : String
  domain : String
  needsImage : Bool
  deriving DecidableEq, Repr

/-- `item.guid?.[0]` as produced by xml2js: either a plain string or an
object carrying the element text under `_` (guid elements whose object form
lacks a `_` text, which would leak a non-string into the string-typed field,
are outside the model). -/
inductive GuidCell
  | plain (s : String)
  | withText (t : String)
  deriving DecidableEq, Repr

/-- `item.guid?.[0]?._ || item.guid?.[0] || ""`. -/
def guidStr : Option GuidCell → String
  | none => ""
  | some (.plain s) => s
  | some (.withText t) => t

/-- One `<item>` of the parsed RSS channel; each field models the
corresponding xml2js access (`none` = key absent). -/
structure RawRssItem where
  title : Option String
  link : Option String
  pubDate : Option String
  guid : Option GuidCell
  contentEncoded : Option String
  description : Option String
  mediaContentUrl : Option String
  deriving DecidableEq, Repr

/-- Field extraction of the news route's `items.map((item) => ...)`. -/
def mkNewsItem (host : String) (it : RawRssItem) : NewsItem :=
  let title := it.title.getD ""
  let link := it.link.getD ""
  let pubDate := it.pubDate.getD ""
  let guid := guidStr it.guid
  let descFallback := it.description.getD ""
  let description :=
    match it.contentEncoded with
    | some s => let t := jsTrim s; if t = "" then descFallback else t
    | none => descFallback
  let image := it.mediaContentUrl.getD ""
  { title := title
    link := link
    description := description
    pubDate := pubDate
    guid := guid
    image := image
    domain := host
    needsImage := image == "" && link != "" }

/-- Outcome of the per-feed fetch+parse: network error, non-ok HTTP status
and xml2js parse exceptions are the paths that end in the route's
`return []`; success carries the source hostname (`new URL(url).hostname`)
and the parsed `rss.channel[0].item` list (absent key = empty list). -/
inductive NewsFetchOutcome
  | netErr
  | badStatus (code : Nat)
  | parseErr
  | ok (host : String) (items : List RawRssItem)
  deriving DecidableEq, Repr

def isNewsFailure : NewsFetchOutcome → Bool
  | .ok _ _ => false
  | _ => true

/-- `fetchRSSFeed`: failures yield `[]`; successes map the raw items and
filter out those with an empty title or link. -/
def fetchRSSFeed : NewsFetchOutcome → List NewsItem
  | .netErr => []
  | .badStatus _ => []
  | .parseErr => []
  | .ok host items =>
    (items.map (mkNewsItem host)).filter (fun it => it.title != "" && it.link != "")

/-- The news route's sort comparator; `pd` is the oracle for
`new Date(s).getTime()` (`none` = `NaN`). -/
def newsCmp (pd : String → Option Int) (a b : NewsItem) : Int :=
  match pd a.pubDate, pd b.pubDate with
  | none, none => 0
  | none, some _ => 1
  | some _, none => -1
  | some ta, some tb => tb - ta

def newsLe (pd : String → Option Int) (a b : NewsItem) : Bool :=
  decide (newsCmp pd a b ≤ 0)

/-- The flattened, date-filtered item list before sorting. -/
def newsFiltered (srcs : List NewsFetchOutcome) : List NewsItem :=
  ((srcs.map fetchRSSFeed).flatten).filter (fun it => it.pubDate != "")

/-- `allItems` of the news route: flatten, keep items with a date, sort. -/
def newsAggregate (pd : String → Option Int) (srcs : List NewsFetchOutcome) :
    List NewsItem :=
  sortByLe (newsLe pd) (newsFiltered srcs)

/-- Outcome of the enrichment fetch of one article page: network error,
non-ok status, or the page body with the result of the `og:image` meta-tag
regex (`some` = the content attribute captured by the pattern). -/
inductive OGOutcome
  | netErr
  | badStatus (code : Nat)
  | page (ogImageTag : Option String)
  deriving DecidableEq, Repr

/-- `fetchOGImageFromPage`: every failure path returns `null`; on a fetched
page, `ogMatch?.[1] || null`. -/
def fetchOGImageFromPage : OGOutcome → Option String
  | .netErr => none
  | .badStatus _ => none
  | .page t =>
    match t with
    | some s => if s = "" then none else some s
    | none => none

/-- The per-item body of `enrichItemsWithImages`; `og` maps an article link
to its enrichment-fetch outcome. -/
def enrichOne (og : String → OGOutcome) (it : NewsItem) : NewsItem :=
  if !it.needsImage || it.link == "" then it
  else
    let image :=
      match fetchOGImageFromPage (og it.link) with
      | some s => s
      | none => ""
    { it with image := image, needsImage := false }

/-- The news route `GET` after parameter parsing: aggregate, paginate,
enrich the page, answer. -/
def newsGET (pd : String → Option Int) (og : String → OGOutcome)
    (srcs : List NewsFetchOutcome) (offset limit : Nat) : ApiPage NewsItem :=
  let allItems := newsAggregate pd srcs
  let paginatedItems := jsSlice allItems offset (offset + limit)
  let enrichedItems := paginatedItems.map (enrichOne og)
  { items := enrichedItems
    hasMore := decide (offset + limit < allItems.length)
    total := allItems.length }

/-- JSON values occurring in a serialized news item. -/
inductive JVal
  | jstr (s : String)
  | jbool (b : Bool)
  deriving DecidableEq, Repr

/-- JSON serialization of one news item: the object literal built in
`fetchRSSFeed` lists exactly these keys in this order, the enrichment spread
preserves them, and `NextResponse.json` keeps boolean fields. -/
def newsItemJson (it : NewsItem) : List (String × JVal) :=
  [("title", .jstr it.title), ("link", .jstr it.link),
   ("description", .jstr it.description), ("pubDate", .jstr it.pubDate),
   ("guid", .jstr it.guid), ("image", .jstr it.image),
   ("domain", .jstr it.domain), ("needsImage", .jbool it.needsImage)]

/-! ### Video pipeline (`src/app/api/videos/route.ts`) -/

structure VideoItem where
  id : String
  videoId : String
  title : String
  thumbnail : String
  channelName : String
  published : String
  views : String
  deriving DecidableEq, Repr

/-- The value of `media:statistics[0]` as parsed by xml2js: an element with
attributes becomes an object whose `$` holds them (`views` may be absent), an
element without attributes becomes a plain string (so `.$` is `undefined`). -/
inductive StatsCell
  | plain
  | withAttrs (views : Option String)
  deriving DecidableEq, Repr

/-- One `<entry>` of the parsed channel feed.  `stats` is
`media:group[0].media:community[0].media:statistics[0]`; `none` models the
absence of any element along that chain, which makes the corresponding
JavaScript index access throw. -/
structure VideoEntry where
  id : String
  ytVideoId : String
  title : String
  authorName : String
  published : String
  stats : Option StatsCell
  deriving DecidableEq, Repr

/-- The entry-to-item mapping of the videos route.  The optional chain
`['media:statistics'][0]?.$.views` only guards the indexed element itself:
when the element is absent the index access throws a `TypeError` before the
`?.` applies, and when the element is a plain string its `$` is `undefined`,
so `.views` throws as well; only `$.views || '0'` ever defaults. -/
def normalizeVideoEntry (e : VideoEntry) : Except String VideoItem :=
  match e.stats with
  | none => .error "TypeError"
  | some .plain => .error "TypeError"
  | some (.withAttrs v) =>
    .ok
      { id := e.id
        videoId := e.ytVideoId
        title := e.title
        thumbnail := "https://i.ytimg.com/vi/" ++ e.ytVideoId ++ "/mqdefault.jpg"
        channelName := e.authorName
        published := e.published
        views := match v with | some s => if s = "" then "0" else s | none => "0" }

/-- Outcome of one channel fetch; success carries `result.feed.entry`
(`none` = key absent, read as `[]` by `|| []`). -/
inductive VideoFetchOutcome
  | netErr
  | badStatus (code : Nat)
  | parseErr
  | ok (entries : Option (List VideoEntry))
  deriving DecidableEq, Repr

def isVideoFailure : VideoFetchOutcome → Bool
  | .ok _ => false
  | _ => true

/-- Per-channel body of the videos route: `!response.ok` and every exception
(fetch, parse, or a `TypeError` thrown while mapping an entry) fall into the
`catch` that returns `[]`. -/
def fetchChannelVideos : VideoFetchOutcome → List VideoItem
  | .netErr => []
  | .badStatus _ => []
  | .parseErr => []
  | .ok entries =>
    match (entries.getD []).mapM normalizeVideoEntry with
    | .ok items => items
    | .error _ => []

/-- The videos route's comparator
`new Date(b.published).getTime() - new Date(a.published).getTime()`: when
either date is unparsable the subtraction is `NaN`, which the sort treats as
`0` (neither `< 0` nor `> 0`), i.e. a tie. -/
def videoCmp (pd : String → Option Int) (a b : VideoItem) : Int :=
  match pd a.published, pd b.published with
  | some ta, some tb => tb - ta
  | _, _ => 0

def videoLe (pd : String → Option Int) (a b : VideoItem) : Bool :=
  decide (videoCmp pd a b ≤ 0)

/-- `sortedVideos`: flatten all channels and sort; no filtering happens. -/
def videosAggregate (pd : String → Option Int) (chans : List VideoFetchOutcome) :
    List VideoItem :=
  sortByLe (videoLe pd) ((chans.map fetchChannelVideos).flatten)

/-- The videos route `GET` after parameter parsing. -/
def videosGET (pd : String → Option Int) (chans : List VideoFetchOutcome)
    (offset limit : Nat) : ApiPage VideoItem :=
  let sortedVideos := videosAggregate pd chans
  { items := jsSlice sortedVideos offset (offset + limit)
    hasMore := decide (offset + limit < sortedVideos.length)
    total := sortedVideos.length }

/-! ### Product pipeline (`src/app/api/product/route.ts`) -/

structure Product where
  id : String
  title : String
  description : String
  image : String
  price : String
  url : String
  domain : String
  deriving DecidableEq, Repr

/-- `Buffer.from(url).toString("base64")` (standard alphabet, padded). -/
def utf8Bytes (s : String) : List Nat :=
  (s.toList.map (fun c =>
    let n := c.toNat
    if n < 0x80 then [n]
    else if n < 0x800 then [0xC0 + n / 0x40, 0x80 + n % 0x40]
    else if n < 0x10000 then
      [0xE0 + n / 0x1000, 0x80 + n / 0x40 % 0x40, 0x80 + n % 0x40]
    else
      [0xF0 + n / 0x40000, 0x80 + n / 0x1000 % 0x40,
       0x80 + n / 0x40 % 0x40, 0x80 + n % 0x40])).flatten

def b64Char (n : Nat) : Char :=
  ("ABCDEFGHIJKLMNOPQRSTUVWXYZabcdefghijklmnopqrstuvwxyz0123456789+/".toList).getD n 'A'

def base64Chunks : List Nat → List Char
  | b1 :: b2 :: b3 :: rest =>
    b64Char (b1 / 4) :: b64Char (b1 % 4 * 16 + b2 / 16) ::
    b64Char (b2 % 16 * 4 + b3 / 64) :: b64Char (b3 % 64) :: base64Chunks rest
  | [b1, b2] =>
    [b64Char (b1 / 4), b64Char (b1 % 4 * 16 + b2 / 16), b64Char (b2 % 16 * 4), '=']
  | [b1] => [b64Char (b1 / 4), b64Char (b1 % 4 * 16), '=', '=']
  | [] => []

def base64Of (s : String) : String :=
  String.mk (base64Chunks (utf8Bytes s))

/-- The Pickaboo selector fallback chain, in source order. -/
def pickabooSelectors : List String :=
  [".price-current", ".product-price", "[class*=\"price\"]",
   "h2:contains(\"৳\")", "span:contains(\"৳\")"]

/-- The Daraz selector fallback chain, in source order. -/
def darazSelectors : List String :=
  ["[data-testid=\"price-current\"]", ".pdp-price", "#module_product_price_1 span",
   "[class*=\"price\"]", "span:contains(\"৳\")"]

def isDigitOrComma (c : Char) : Bool :=
  c.isDigit || c == ','

/-- One attempt of the regex `৳\s*[\d,]+|Tk\s*[\d,]+` anchored at the head of
`cs` (alternatives tried left to right, `\s*` and `[\d,]+` greedy). -/
def matchPriceAt (cs : List Char) : Option (List Char) :=
  match cs with
  | [] => none
  | c :: rest =>
    if c == '৳' then
      let sp := rest.takeWhile isSpaceJS
      let after := rest.dropWhile isSpaceJS
      let ds := after.takeWhile isDigitOrComma
      if ds.isEmpty then none else some (c :: (sp ++ ds))
    else
      match cs with
      | 'T' :: 'k' :: rest2 =>
        let sp := rest2.takeWhile isSpaceJS
        let after := rest2.dropWhile isSpaceJS
        let ds := after.takeWhile isDigitOrComma
        if ds.isEmpty then none else some ('T' :: 'k' :: (sp ++ ds))
      | _ => none

/-- `priceText.match(/৳\s*[\d,]+|Tk\s*[\d,]+/)`: the leftmost position with a
match wins. -/
def firstPriceMatch : List Char → Option (List Char)
  | [] => none
  | c :: cs =>
    match matchPriceAt (c :: cs) with
    | some m => some m
    | none => firstPriceMatch cs

/-- The per-selector loop body shared by both domain chains: the first
selector whose trimmed text is non-empty and contains `৳` or `Tk` wins, and
the price is the regex match when one exists, otherwise the whole text;
when no selector wins the sentinel is kept. -/
def priceFromSelectors (selText : String → String) : List String → String
  | [] => "Price not available"
  | sel :: rest =>
    let priceText := jsTrim (selText sel)
    if priceText != "" && (jsIncludes priceText "৳" || jsIncludes priceText "Tk") then
      match firstPriceMatch priceText.toList with
      | some m => String.mk m
      | none => priceText
    else priceFromSelectors selText rest

/-- The domain dispatch around the two selector chains. -/
def extractPrice (domain : String) (selText : String → String) : String :=
  if jsIncludes domain "pickaboo" then priceFromSelectors selText pickabooSelectors
  else if jsIncludes domain "daraz" then priceFromSelectors selText darazSelectors
  else "Price not available"

/-- A fetched product page as queried by the scraper: the `content`
attribute of each meta tag (`""` both for a missing tag and for a missing
attribute, which `||` treats alike), the `<title>` text, and the trimmed-off
raw text `$(sel).first().text()` for each price selector. -/
structure ProductPage where
  ogTitleProp : String
  ogTitleName : String
  titleText : String
  ogDescProp : String
  ogDescName : String
  metaDesc : String
  ogImageProp : String
  ogImageName : String
  selText : String → String

/-- Outcome of fetching one product page. -/
inductive ScrapeOutcome
  | fail
  | ok (page : ProductPage)

/-- `scrapeProductDataFast`: any axios exception returns `null`; a page with
an empty trimmed title returns `null`; otherwise the product record. -/
def scrapeProductDataFast (out : ScrapeOutcome) (url domain : String) :
    Option Product :=
  match out with
  | .fail => none
  | .ok page =>
    let ogTitle := jsOr page.ogTitleProp (jsOr page.ogTitleName (jsOr page.titleText ""))
    let ogDescription := jsOr page.ogDescProp (jsOr page.ogDescName (jsOr page.metaDesc ""))
    let ogImage := jsOr page.ogImageProp (jsOr page.ogImageName "")
    let price := extractPrice domain page.selText
    if jsTrim ogTitle = "" then none
    else
      some
        { id := strTake (base64Of url) 16
          title := strTake ogTitle 100
          description := strTake ogDescription 200
          image :=
            if ogImage.startsWith "http" then ogImage
            else if ogImage != "" then "https://" ++ domain ++ ogImage
            else ""
          price := price
          url := url
          domain := domain }

/-- Outcome of one sitemap fetch+parse; success carries the `loc[0]` value of
each `urlset.url` entry (`none` = `loc` absent). -/
inductive SitemapOutcome
  | fail
  | ok (entries : List (Option String))

/-- `fetchSitemapFast`: failures yield `[]`; entries whose `loc[0]` is absent
or empty are skipped, and the list is capped at 50. -/
def fetchSitemapFast : SitemapOutcome → List String
  | .fail => []
  | .ok entries =>
    (entries.filterMap (fun o =>
      match o with
      | some s => if s = "" then none else some s
      | none => none)).take 50

/-- One configured product source: its sitemap fetch outcome, the fetch
outcome of each candidate page URL, and the configured domain string. -/
structure ProductSource where
  sitemap : SitemapOutcome
  pageAt : String → ScrapeOutcome
  domain : String

def isProductFailure (src : ProductSource) : Bool :=
  match src.sitemap with
  | .fail => true
  | .ok _ => false

/-- Per-source body of the product route `GET`: scrape the first 15 sitemap
URLs and drop the `null` results. -/
def productSourceItems (src : ProductSource) : List Product :=
  let urls := fetchSitemapFast src.sitemap
  ((urls.take 15).map (fun u => scrapeProductDataFast (src.pageAt u) u src.domain)).filterMap id

def productLe (lc : String → String → Int) (a b : Product) : Bool :=
  decide (lc a.title b.title ≤ 0)

/-- `allProducts` after the sort; `lc` is the oracle for the locale-aware
`a.title.localeCompare(b.title)`. -/
def productAggregate (lc : String → String → Int) (sources : List ProductSource) :
    List Product :=
  sortByLe (productLe lc) ((sources.map productSourceItems).flatten)

/-- The product route `GET` after parameter parsing. -/
def productGET (lc : String → String → Int) (sources : List ProductSource)
    (offset limit : Nat) : ApiPage Product :=
  let allProducts := productAggregate lc sources
  { items := jsSlice allProducts offset (offset + limit)
    hasMore := decide (offset + limit < allProducts.length)
    total := allProducts.length }

/-! ### Lemmas about the stable sort -/

lemma mem_insertLe (le : α → α → Bool) (x a : α) :
    ∀ l : List α, a ∈ insertLe le x l ↔ a = x ∨ a ∈ l := by
  intro l
  induction l with
  | nil => simp [insertLe]
  | cons y ys ih =>
    by_cases h : le x y = true
    · simp only [insertLe, if_pos h, List.mem_cons]
    · simp only [insertLe, if_neg h, List.mem_cons, ih]
      tauto

lemma mem_sortByLe (le : α → α → Bool) (a : α) :
    ∀ l : List α, a ∈ sortByLe le l ↔ a ∈ l := by
  intro l
  induction l with
  | nil => simp [sortByLe]
  | cons x xs ih =>
    simp only [sortByLe, mem_insertLe, ih, List.mem_cons]

lemma pairwise_insertLe (le : α → α → Bool)
    (htot : ∀ a b, le a b = true ∨ le b a = true)
    (htrans : ∀ a b c, le a b = true → le b c = true → le a c = true)
    (x : α) :
    ∀ l : List α, l.Pairwise (fun a b => le a b = true) →
      (insertLe le x l).Pairwise (fun a b => le a b = true) := by
  intro l
  induction l with
  | nil => intro _; simp [insertLe]
  | cons y ys ih =>
    intro h
    rw [List.pairwise_cons] at h
    obtain ⟨hy, hys⟩ := h
    by_cases hxy : le x y = true
    · simp only [insertLe, if_pos hxy]
      refine List.Pairwise.cons ?_ (List.Pairwise.cons hy hys)
      intro b hb
      rcases List.mem_cons.mp hb with rfl | hb
      · exact hxy
      · exact htrans x y b hxy (hy b hb)
    · simp only [insertLe, if_neg hxy]
      refine List.Pairwise.cons ?_ (ih hys)
      intro b hb
      rcases (mem_insertLe le x b ys).mp hb with rfl | hb
      · rcases htot y b with h1 | h1
        · exact h1
        · exact absurd h1 hxy
      · exact hy b hb

lemma pairwise_sortByLe (le : α → α → Bool)
    (htot : ∀ a b, le a b = true ∨ le b a = true)
    (htrans : ∀ a b c, le a b = true → le b c = true → le a c = true) :
    ∀ l : List α, (sortByLe le l).Pairwise (fun a b => le a b = true) := by
  intro l
  induction l with
  | nil => simp [sortByLe]
  | cons x xs ih => exact pairwise_insertLe le htot htrans x _ ih

lemma filter_insertLe_pos (le : α → α → Bool) (p : α → Bool) (x : α)
    (hpx : p x = true) (hc : ∀ y, le x y = false → p y = false) :
    ∀ l : List α, (insertLe le x l).filter p = x :: l.filter p := by
  intro l
  induction l with
  | nil => simp [insertLe, hpx]
  | cons y ys ih =>
    by_cases hxy : le x y = true
    · simp [insertLe, hxy, hpx]
    · have hpy : p y = false := hc y (Bool.not_eq_true _ |>.mp hxy)
      simp [insertLe, hxy, hpy, ih]

lemma filter_insertLe_neg (le : α → α → Bool) (p : α → Bool) (x : α)
    (hpx : p x = false) :
    ∀ l : List α, (insertLe le x l).filter p = l.filter p := by
  intro l
  induction l with
  | nil => simp [insertLe, hpx]
  | cons y ys ih =>
    by_cases hxy : le x y = true
    · simp [insertLe, hxy, hpx]
    · simp [insertLe, hxy, List.filter_cons, ih]

/-- Stability of the sort, in filtration form: for any key function that
separates elements the comparator strictly orders, the subsequence of any
one key class is untouched by sorting. -/
lemma filter_sortByLe {β : Type} [BEq β] [LawfulBEq β] (le : α → α → Bool) (K : α → β)
    (hK : ∀ x y, le x y = false → K x ≠ K y) (k : β) :
    ∀ l : List α,
      (sortByLe le l).filter (fun a => K a == k) = l.filter (fun a => K a == k) := by
  intro l
  induction l with
  | nil => simp [sortByLe]
  | cons x xs ih =>
    by_cases hx : K x = k
    · have hpx : (fun a => K a == k) x = true := by simp [hx]
      have hc : ∀ y, le x y = false → (fun a => K a == k) y = false := by
        intro y hxy
        have := hK x y hxy
        simp only [beq_eq_false_iff_ne, ne_eq]
        rw [hx] at this
        exact fun h => this h.symm
      rw [sortByLe, filter_insertLe_pos le _ x hpx hc, ih]
      simp [hx]
    · have hpx : (fun a => K a == k) x = false := by simp [hx]
      rw [sortByLe, filter_insertLe_neg le _ x hpx, ih]
      simp [hx]

/-! ### Properties of the news comparator -/

lemma newsLe_total (pd : String → Option Int) (a b : NewsItem) :
    newsLe pd a b = true ∨ newsLe pd b a = true := by
  simp only [newsLe, decide_eq_true_eq, newsCmp]
  rcases pd a.pubDate with _ | ta <;> rcases pd b.pubDate with _ | tb <;> simp <;> omega

lemma newsLe_trans (pd : String → Option Int) (a b c : NewsItem) :
    newsLe pd a b = true → newsLe pd b c = true → newsLe pd a c = true := by
  simp only [newsLe, decide_eq_true_eq, newsCmp]
  rcases pd a.pubDate with _ | ta <;> rcases pd b.pubDate with _ | tb <;>
    rcases pd c.pubDate with _ | tc <;> simp <;> omega

lemma newsLe_false_key_ne (pd : String → Option Int) (a b : NewsItem) :
    newsLe pd a b = false → pd a.pubDate ≠ pd b.pubDate := by
  simp only [newsLe, decide_eq_false_iff_not, not_le, newsCmp]
  rcases pd a.pubDate with _ | ta <;> rcases pd b.pubDate with _ | tb <;> simp <;> omega

lemma jsSlice_add (l : List α) (a b : Nat) :
    jsSlice l a (a + b) = (l.drop a).take b := by
  simp [jsSlice]

/-! ### C2: sort order -/

/-- C2 (counterexample): in the video endpoint an item with an unparsable
publish date does not sort after the parsable ones — the comparator
`new Date(b).getTime() - new Date(a).getTime()` is `NaN` there, which the
sort treats as a tie, so the unparsable-date item keeps its leading
position. -/
def c2pd : String → Option Int := fun s => if s == "good" then some 10 else none

def c2entBad : VideoEntry :=
  { id := "vid1", ytVideoId := "x1", title := "t1", authorName := "chan",
    published := "bad", stats := some (.withAttrs (some "1")) }

def c2entGood : VideoEntry :=
  { id := "vid2", ytVideoId := "x2", title := "t2", authorName := "chan",
    published := "good", stats := some (.withAttrs (some "2")) }

/-- C2 is false for the video endpoint: with a channel returning an
unparsable-date entry followed by a parsable-date entry, the returned order
keeps the unparsable item first, ahead of an item with a valid date. -/
theorem video_unparsable_date_first :
    ((videosGET c2pd [.ok (some [c2entBad, c2entGood])] 0 30).items.map
        (fun v => v.published)) = ["bad", "good"] ∧
    c2pd "bad" = none ∧ c2pd "good" = some 10 := by
  refine ⟨rfl, rfl, rfl⟩

/-- C2 (amended): the claim holds for the news endpoint — the aggregate is
pairwise ordered by the comparator (so descending by timestamp with
unparsable dates last) and the sort is stable (each date-key class keeps its
input order) — while in the video endpoint the comparator returns a tie
whenever either date is unparsable, so unparsable-date items keep their
relative input positions instead of sorting last. -/
theorem news_video_sort_amended :
    (∀ (pd : String → Option Int) (srcs : List NewsFetchOutcome),
        (newsAggregate pd srcs).Pairwise (fun a b => newsCmp pd a b ≤ 0)) ∧
    (∀ (pd : String → Option Int) (srcs : List NewsFetchOutcome) (k : Option Int),
        (newsAggregate pd srcs).filter (fun it => pd it.pubDate == k) =
          (newsFiltered srcs).filter (fun it => pd it.pubDate == k)) ∧
    (∀ (pd : String → Option Int) (a b : VideoItem),
        pd a.published = none ∨ pd b.published = none → videoCmp pd a b = 0) := by
  refine ⟨?_, ?_, ?_⟩
  · intro pd srcs
    have h := pairwise_sortByLe (newsLe pd) (newsLe_total pd) (newsLe_trans pd)
      (newsFiltered srcs)
    exact h.imp (fun hb => by simpa [newsLe, decide_eq_true_eq] using hb)
  · intro pd srcs k
    exact filter_sortByLe (newsLe pd) (fun it => pd it.pubDate)
      (newsLe_false_key_ne pd) k _
  · intro pd a b h
    rcases ha : pd a.published with _ | ta <;> rcases hb : pd b.published with _ | tb <;>
      simp_all [videoCmp]

def c2itemBad : VideoItem :=
  { id := "vid1", videoId := "x1", title := "t1",
    thumbnail := "https://i.ytimg.com/vi/x1/mqdefault.jpg",
    channelName := "chan", published := "bad", views := "1" }

def c2itemGood : VideoItem :=
  { id := "vid2", videoId := "x2", title := "t2",
    thumbnail := "https://i.ytimg.com/vi/x2/mqdefault.jpg",
    channelName := "chan", published := "good", views := "2" }

/-- C2 (witness for the amended theorem). -/
theorem news_video_sort_amended_witness :
    videoCmp c2pd c2itemBad c2itemGood = 0 :=
  news_video_sort_amended.2.2 c2pd c2itemBad c2itemGood (Or.inl rfl)

/-! ### C1: pagination window -/

def c1pd : String → Option Int := fun s => if s == "d1" then some 1 else none

def c1raw : RawRssItem :=
  { title := some "A", link := some "http://a", pubDate := some "d1",
    guid := none, contentEncoded := none, description := none,
    mediaContentUrl := none }

def c1og : String → OGOutcome := fun _ => .page (some "http://img.png")

def c1srcs : List NewsFetchOutcome := [.ok "ex.com" [c1raw]]

/-- C1 is false for the news endpoint: the returned page is the enriched
image of the slice, not the slice itself — here the single page item lacks a
feed image, so the enrichment pass rewrites its `image` and `needsImage`
fields and the response differs from the slice of the sorted aggregate. -/
theorem news_page_differs_from_slice :
    (newsGET c1pd c1og c1srcs 0 30).items ≠
      jsSlice (newsAggregate c1pd c1srcs) 0 (0 + 30) := by
  decide

/-- C1 (amended): for every endpoint, `total` is the length of the full
filtered and sorted aggregate and `hasMore` holds exactly when
`offset + limit < total`; the video and product endpoints return exactly the
aggregate sliced at `[offset, offset+limit)`, while the news endpoint
returns the image-enrichment of that slice. -/
theorem pagination_window_amended :
    (∀ (pd : String → Option Int) (og : String → OGOutcome)
        (srcs : List NewsFetchOutcome) (offset limit : Nat),
      (newsGET pd og srcs offset limit).total = (newsAggregate pd srcs).length ∧
      ((newsGET pd og srcs offset limit).hasMore = true ↔
        offset + limit < (newsAggregate pd srcs).length) ∧
      (newsGET pd og srcs offset limit).items =
        (((newsAggregate pd srcs).drop offset).take limit).map (enrichOne og)) ∧
    (∀ (pd : String → Option Int) (chans : List VideoFetchOutcome)
        (offset limit : Nat),
      (videosGET pd chans offset limit).total = (videosAggregate pd chans).length ∧
      ((videosGET pd chans offset limit).hasMore = true ↔
        offset + limit < (videosAggregate pd chans).length) ∧
      (videosGET pd chans offset limit).items =
        ((videosAggregate pd chans).drop offset).take limit) ∧
    (∀ (lc : String → String → Int) (sources : List ProductSource)
        (offset limit : Nat),
      (productGET lc sources offset limit).total = (productAggregate lc sources).length ∧
      ((productGET lc sources offset limit).hasMore = true ↔
        offset + limit < (productAggregate lc sources).length) ∧
      (productGET lc sources offset limit).items =
        ((productAggregate lc sources).drop offset).take limit) := by
  refine ⟨?_, ?_, ?_⟩
  · intro pd og srcs offset limit
    refine ⟨rfl, by simp [newsGET], ?_⟩
    simp [newsGET, jsSlice_add]
  · intro pd chans offset limit
    exact ⟨rfl, by simp [videosGET], by simp [videosGET, jsSlice_add]⟩
  · intro lc sources offset limit
    exact ⟨rfl, by simp [productGET], by simp [productGET, jsSlice_add]⟩

/-! ### C3: source isolation -/

lemma flatten_map_eraseIdx {σ : Type} (f : σ → List α) :
    ∀ (l : List σ) (i : Nat), (h : i < l.length) → f l[i] = [] →
      (l.map f).flatten = ((l.eraseIdx i).map f).flatten := by
  intro l
  induction l with
  | nil => intro i h; simp at h
  | cons x xs ih =>
    intro i h hnil
    match i with
    | 0 =>
      simp only [List.getElem_cons_zero] at hnil
      simp [List.eraseIdx, hnil]
    | i + 1 =>
      simp only [List.getElem_cons_succ] at hnil
      have h' : i < xs.length := by simpa using h
      simp only [List.eraseIdx, List.map_cons, List.flatten_cons]
      rw [ih i h' hnil]

lemma fetchRSSFeed_of_failure (o : NewsFetchOutcome) (h : isNewsFailure o = true) :
    fetchRSSFeed o = [] := by
  cases o <;> simp_all [isNewsFailure, fetchRSSFeed]

lemma fetchChannelVideos_of_failure (o : VideoFetchOutcome) (h : isVideoFailure o = true) :
    fetchChannelVideos o = [] := by
  cases o <;> simp_all [isVideoFailure, fetchChannelVideos]

lemma productSourceItems_of_failure (src : ProductSource) (h : isProductFailure src = true) :
    productSourceItems src = [] := by
  unfold productSourceItems fetchSitemapFast isProductFailure at *
  cases hs : src.sitemap with
  | fail => simp
  | ok entries => rw [hs] at h; simp at h

/-- C3: a failing source (network error, bad status, or parse exception)
contributes an empty list, so for each endpoint the response with the
failing source present equals the response computed from the remaining
sources alone. -/
theorem source_isolation :
    (∀ (pd : String → Option Int) (og : String → OGOutcome)
        (srcs : List NewsFetchOutcome) (i offset limit : Nat)
        (h : i < srcs.length), isNewsFailure srcs[i] = true →
      newsGET pd og srcs offset limit = newsGET pd og (srcs.eraseIdx i) offset limit) ∧
    (∀ (pd : String → Option Int) (chans : List VideoFetchOutcome)
        (i offset limit : Nat) (h : i < chans.length), isVideoFailure chans[i] = true →
      videosGET pd chans offset limit = videosGET pd (chans.eraseIdx i) offset limit) ∧
    (∀ (lc : String → String → Int) (sources : List ProductSource)
        (i offset limit : Nat) (h : i < sources.length),
        isProductFailure sources[i] = true →
      productGET lc sources offset limit =
        productGET lc (sources.eraseIdx i) offset limit) := by
  refine ⟨?_, ?_, ?_⟩
  · intro pd og srcs i offset limit h hfail
    have : (srcs.map fetchRSSFeed).flatten = ((srcs.eraseIdx i).map fetchRSSFeed).flatten :=
      flatten_map_eraseIdx fetchRSSFeed srcs i h (fetchRSSFeed_of_failure _ hfail)
    simp only [newsGET, newsAggregate, newsFiltered, this]
  · intro pd chans i offset limit h hfail
    have : (chans.map fetchChannelVideos).flatten =
        ((chans.eraseIdx i).map fetchChannelVideos).flatten :=
      flatten_map_eraseIdx fetchChannelVideos chans i h
        (fetchChannelVideos_of_failure _ hfail)
    simp only [videosGET, videosAggregate, this]
  · intro lc sources i offset limit h hfail
    have : (sources.map productSourceItems).flatten =
        ((sources.eraseIdx i).map productSourceItems).flatten :=
      flatten_map_eraseIdx productSourceItems sources i h
        (productSourceItems_of_failure _ hfail)
    simp only [productGET, productAggregate, this]

def c3src : ProductSource :=
  { sitemap := .fail, pageAt := fun _ => .fail, domain := "shop.example" }

/-- C3 (witness): each conjunct applied to a two-source list whose first
source fails. -/
theorem source_isolation_witness :
    newsGET c1pd c1og [.parseErr, .ok "ex.com" [c1raw]] 0 30 =
      newsGET c1pd c1og ([NewsFetchOutcome.parseErr, .ok "ex.com" [c1raw]].eraseIdx 0) 0 30 ∧
    videosGET c2pd [.netErr, .ok (some [c2entGood])] 0 30 =
      videosGET c2pd ([VideoFetchOutcome.netErr, .ok (some [c2entGood])].eraseIdx 0) 0 30 ∧
    productGET (fun _ _ => 0) [c3src] 0 20 =
      productGET (fun _ _ => 0) ([c3src].eraseIdx 0) 0 20 :=
  ⟨source_isolation.1 c1pd c1og _ 0 0 30 (by decide) (by decide),
   source_isolation.2.1 c2pd _ 0 0 30 (by decide) (by decide),
   source_isolation.2.2 (fun _ _ => 0) _ 0 0 20 (by decide) (by decide)⟩

/-! ### C4: query-parameter parsing -/

/-- C4 is false: a present non-numeric `offset`/`limit` value is not treated
as the default — the `|| default` fallback fires only for an absent or empty
parameter, so `parseInt("abc")` / `Number("abc")` produce `NaN` instead. -/
theorem nonnumeric_param_not_default :
    newsOffsetArg (some "abc") ≠ newsOffsetArg none ∧
    productLimitArg (some "abc") ≠ productLimitArg none ∧
    videoOffsetArg (some "abc") ≠ videoOffsetArg none ∧
    newsOffsetArg (some "abc") = none ∧ newsOffsetArg none = some 0 := by
  decide

/-- C4 (amended): the parameters fall back to their domain defaults only
when absent or empty; any other present value goes straight into
`parseInt` (news, product) or `Number` (video), so a non-numeric value
yields `NaN` rather than the default. -/
theorem query_param_fallback_amended :
    newsOffsetArg none = some 0 ∧ newsOffsetArg (some "") = some 0 ∧
    newsLimitArg none = some 30 ∧ newsLimitArg (some "") = some 30 ∧
    productOffsetArg none = some 0 ∧ productLimitArg none = some 20 ∧
    videoOffsetArg none = some 0 ∧ videoOffsetArg (some "") = some 0 ∧
    videoLimitArg none = some 30 ∧
    parseIntJS "abc" = none ∧ jsNumberInt "abc" = none ∧
    parseIntJS "17" = some 17 ∧ jsNumberInt "17" = some 17 ∧
    (∀ s : String, s ≠ "" →
      newsOffsetArg (some s) = parseIntJS s ∧
      newsLimitArg (some s) = parseIntJS s ∧
      productOffsetArg (some s) = parseIntJS s ∧
      productLimitArg (some s) = parseIntJS s ∧
      videoOffsetArg (some s) = jsNumberInt s ∧
      videoLimitArg (some s) = jsNumberInt s) := by
  refine ⟨by decide, by decide, by decide, by decide, by decide, by decide, by decide,
    by decide, by decide, by decide, by decide, by decide, by decide, ?_⟩
  intro s hs
  simp [newsOffsetArg, newsLimitArg, productOffsetArg, productLimitArg,
    videoOffsetArg, videoLimitArg, queryOrDefault, hs]

/-- C4 (witness for the amended theorem). -/
theorem query_param_fallback_amended_witness :
    newsOffsetArg (some "5") = parseIntJS "5" :=
  (query_param_fallback_amended.2.2.2.2.2.2.2.2.2.2.2.2.2 "5" (by decide)).1

/-! ### C5: price extraction -/

/-- The acceptance test of the selector loop: non-empty trimmed text that
contains `৳` or `Tk` (no digits required). -/
def selectorAccepts (t : String) : Bool :=
  t != "" && (jsIncludes t "৳" || jsIncludes t "Tk")

def c5sel : String → String := fun s => if s == ".price-current" then "৳" else ""

/-- C5 is false: a selector whose text contains the currency symbol but no
digits still wins the loop — with `.price-current` holding just `"৳"`, no
selector text matches the symbol-followed-by-digits pattern, yet the price
is the raw text `"৳"` rather than the sentinel. -/
theorem price_symbol_no_digits_counterexample :
    priceFromSelectors c5sel pickabooSelectors = "৳" ∧
    (pickabooSelectors.map (fun sel => firstPriceMatch (jsTrim (c5sel sel)).toList)) =
      [none, none, none, none, none] ∧
    priceFromSelectors c5sel pickabooSelectors ≠ "Price not available" := by
  refine ⟨rfl, rfl, by decide⟩

/-- C5 (amended): the winning selector is the first whose trimmed text is
non-empty and merely contains `৳` or `Tk`; the extracted price is the first
regex match of symbol-then-digits when one exists and otherwise the whole
trimmed text; the sentinel is returned only when no selector wins.  The
chain applies for `pickaboo`/`daraz` domains. -/
theorem price_selector_chain_amended :
    (∀ (selText : String → String) (chain : List String),
      priceFromSelectors selText chain =
        match chain.find? (fun sel => selectorAccepts (jsTrim (selText sel))) with
        | none => "Price not available"
        | some sel =>
          match firstPriceMatch (jsTrim (selText sel)).toList with
          | some m => String.mk m
          | none => jsTrim (selText sel)) ∧
    (∀ (domain : String) (selText : String → String),
      jsIncludes domain "pickaboo" = true →
      extractPrice domain selText = priceFromSelectors selText pickabooSelectors) ∧
    (∀ (domain : String) (selText : String → String),
      jsIncludes domain "pickaboo" = false → jsIncludes domain "daraz" = true →
      extractPrice domain selText = priceFromSelectors selText darazSelectors) := by
  refine ⟨?_, ?_, ?_⟩
  · intro selText chain
    induction chain with
    | nil => rfl
    | cons sel rest ih =>
      rw [List.find?_cons]
      by_cases h : selectorAccepts (jsTrim (selText sel)) = true
      · rw [h]
        simp only [priceFromSelectors, selectorAccepts] at h ⊢
        rw [if_pos h]
      · rw [Bool.not_eq_true] at h
        rw [h]
        have h' : ¬((jsTrim (selText sel)) != "" &&
            (jsIncludes (jsTrim (selText sel)) "৳" ||
             jsIncludes (jsTrim (selText sel)) "Tk")) = true := by
          simpa [selectorAccepts] using h
        simp only [priceFromSelectors]
        rw [if_neg h', ih]
  · intro domain selText h
    simp [extractPrice, h]
  · intro domain selText h1 h2
    simp [extractPrice, h1, h2]

/-- C5 (witness for the amended theorem). -/
theorem price_selector_chain_amended_witness :
    extractPrice "www.pickaboo.com" c5sel = priceFromSelectors c5sel pickabooSelectors :=
  price_selector_chain_amended.2.1 "www.pickaboo.com" c5sel (by decide)

/-! ### Membership facts about the aggregates -/

lemma string_ne_empty_iff (t : String) : t ≠ "" ↔ t.toList ≠ [] := by
  constructor
  · intro h hl
    exact h (String.ext hl)
  · intro h he
    exact h (by rw [he]; rfl)

lemma ne_empty_of_jsTrim_ne_empty (t : String) (h : jsTrim t ≠ "") : t ≠ "" := by
  intro ht
  rw [ht] at h
  exact h rfl

lemma strTake_ne_empty (t : String) (n : Nat) (ht : t ≠ "") (hn : 0 < n) :
    strTake t n ≠ "" := by
  rw [string_ne_empty_iff] at ht ⊢
  unfold strTake
  show (String.mk (t.toList.take n)).toList ≠ []
  intro h
  simp only [String.toList] at h
  rcases List.take_eq_nil_iff.mp h with h1 | h1
  · omega
  · exact ht h1

lemma mem_fetchRSSFeed (o : NewsFetchOutcome) (it : NewsItem) (h : it ∈ fetchRSSFeed o) :
    it.title ≠ "" ∧ it.link ≠ "" := by
  cases o with
  | netErr => simp [fetchRSSFeed] at h
  | badStatus code => simp [fetchRSSFeed] at h
  | parseErr => simp [fetchRSSFeed] at h
  | ok host items =>
    rw [fetchRSSFeed, List.mem_filter] at h
    have hb := h.2
    simp only [Bool.and_eq_true, bne_iff_ne, ne_eq] at hb
    exact hb

lemma mem_newsAggregate (pd : String → Option Int) (srcs : List NewsFetchOutcome)
    (it : NewsItem) (h : it ∈ newsAggregate pd srcs) :
    ∃ o ∈ srcs, it ∈ fetchRSSFeed o := by
  rw [newsAggregate, mem_sortByLe, newsFiltered, List.mem_filter] at h
  obtain ⟨hmem, _⟩ := h
  rw [List.mem_flatten] at hmem
  obtain ⟨l, hl, hit⟩ := hmem
  rw [List.mem_map] at hl
  obtain ⟨o, ho, rfl⟩ := hl
  exact ⟨o, ho, hit⟩

lemma mem_fetchSitemapFast (o : SitemapOutcome) (u : String) (h : u ∈ fetchSitemapFast o) :
    u ≠ "" := by
  cases o with
  | fail => simp [fetchSitemapFast] at h
  | ok entries =>
    rw [fetchSitemapFast] at h
    have h' := List.mem_of_mem_take h
    rw [List.mem_filterMap] at h'
    obtain ⟨a, _, ha⟩ := h'
    match a with
    | none => simp at ha
    | some s =>
      by_cases hs : s = ""
      · simp [hs] at ha
      · simp only [if_neg hs, Option.some.injEq] at ha
        exact ha ▸ hs

lemma scrapeProduct_fields (out : ScrapeOutcome) (url domain : String) (p : Product)
    (h : scrapeProductDataFast out url domain = some p) :
    p.url = url ∧ p.title ≠ "" ∧
      ∃ page : ProductPage, out = .ok page ∧ p.price = extractPrice domain page.selText := by
  cases out with
  | fail => simp [scrapeProductDataFast] at h
  | ok page =>
    rw [scrapeProductDataFast] at h
    by_cases ht : jsTrim (jsOr page.ogTitleProp (jsOr page.ogTitleName (jsOr page.titleText ""))) = ""
    · rw [if_pos ht] at h
      simp at h
    · rw [if_neg ht] at h
      rw [Option.some.injEq] at h
      subst h
      refine ⟨rfl, ?_, page, rfl, rfl⟩
      exact strTake_ne_empty _ 100 (ne_empty_of_jsTrim_ne_empty _ ht) (by omega)

lemma mem_productAggregate (lc : String → String → Int) (sources : List ProductSource)
    (p : Product) (h : p ∈ productAggregate lc sources) :
    ∃ src ∈ sources, ∃ u ∈ (fetchSitemapFast src.sitemap).take 15,
      scrapeProductDataFast (src.pageAt u) u src.domain = some p := by
  rw [productAggregate, mem_sortByLe, List.mem_flatten] at h
  obtain ⟨l, hl, hp⟩ := h
  rw [List.mem_map] at hl
  obtain ⟨src, hsrc, rfl⟩ := hl
  rw [productSourceItems, List.mem_filterMap] at hp
  obtain ⟨a, ha, haid⟩ := hp
  rw [List.mem_map] at ha
  obtain ⟨u, hu, rfl⟩ := ha
  exact ⟨src, hsrc, u, hu, haid⟩

/-! ### C6: title/link invariant -/

def c6ent : VideoEntry :=
  { id := "vid9", ytVideoId := "v9", title := "", authorName := "c",
    published := "p", stats := some (.withAttrs (some "3")) }

/-- C6 is false for the video endpoint: no title/link filter exists there,
so an entry with an empty title yields a result item with an empty title,
and it counts toward `total`. -/
theorem video_empty_title_counterexample :
    ((videosGET (fun _ => none) [.ok (some [c6ent])] 0 30).items.map
        (fun v => v.title)) = [""] ∧
    (videosGET (fun _ => none) [.ok (some [c6ent])] 0 30).total = 1 := by
  refine ⟨rfl, rfl⟩

/-- C6 (amended): every item of the news aggregate has a non-empty title
and link and every item of the product aggregate has a non-empty title and
URL (the per-source filters run before sorting, so `total` counts only the
filtered items); the video endpoint applies no such filter. -/
theorem title_link_filter_amended :
    (∀ (pd : String → Option Int) (srcs : List NewsFetchOutcome)
        (it : NewsItem), it ∈ newsAggregate pd srcs →
      it.title ≠ "" ∧ it.link ≠ "") ∧
    (∀ (lc : String → String → Int) (sources : List ProductSource)
        (p : Product), p ∈ productAggregate lc sources →
      p.title ≠ "" ∧ p.url ≠ "") := by
  constructor
  · intro pd srcs it h
    obtain ⟨o, _, hmem⟩ := mem_newsAggregate pd srcs it h
    exact mem_fetchRSSFeed o it hmem
  · intro lc sources p h
    obtain ⟨src, _, u, hu, hscrape⟩ := mem_productAggregate lc sources p h
    obtain ⟨hurl, htitle, _⟩ := scrapeProduct_fields _ _ _ _ hscrape
    have hune : u ≠ "" := mem_fetchSitemapFast _ _ (List.mem_of_mem_take hu)
    exact ⟨htitle, hurl ▸ hune⟩

/-- C6 fixtures: a concrete healthy product source. -/
def c6page : ProductPage :=
  { ogTitleProp := "Phone X", ogTitleName := "", titleText := "",
    ogDescProp := "", ogDescName := "", metaDesc := "",
    ogImageProp := "", ogImageName := "", selText := fun _ => "৳ 999" }

def c6src : ProductSource :=
  { sitemap := .ok [some "http://p/1"], pageAt := fun _ => .ok c6page,
    domain := "daraz.com.bd" }

def emptyProduct : Product :=
  { id := "", title := "", description := "", image := "", price := "",
    url := "", domain := "" }

def c6prod : Product :=
  (productAggregate (fun _ _ => 0) [c6src]).getD 0 emptyProduct

def c6newsItem : NewsItem :=
  { title := "A", link := "http://a", description := "", pubDate := "d1",
    guid := "", image := "", domain := "ex.com", needsImage := true }

/-- C6 (witness for the amended theorem). -/
theorem title_link_filter_amended_witness :
    (c6newsItem.title ≠ "" ∧ c6newsItem.link ≠ "") ∧
    (c6prod.title ≠ "" ∧ c6prod.url ≠ "") :=
  ⟨title_link_filter_amended.1 c1pd c1srcs c6newsItem (by decide),
   title_link_filter_amended.2 (fun _ _ => 0) [c6src] c6prod (by decide)⟩

/-! ### C7: video statistics defaulting -/

def c7ent : VideoEntry :=
  { id := "yt:video:aaa", ytVideoId := "aaa", title := "T", authorName := "Ch",
    published := "2024-01-01", stats := none }

/-- C7: the thumbnail really is derived deterministically from the video
identifier, but `views` does not default to `"0"` when the statistics
element is absent — the index access throws before the optional chain can
guard it, and the catch discards the whole channel (the entry is dropped
instead of defaulting); `"0"` appears only when the statistics element is
present with attributes but no `views` attribute. -/
theorem video_stats_absent_behavior :
    normalizeVideoEntry c7ent = Except.error "TypeError" ∧
    fetchChannelVideos (.ok (some [c7ent])) = [] ∧
    (∀ (e : VideoEntry) (v : VideoItem), normalizeVideoEntry e = Except.ok v →
      v.thumbnail = "https://i.ytimg.com/vi/" ++ e.ytVideoId ++ "/mqdefault.jpg" ∧
      (e.stats = some (.withAttrs none) → v.views = "0")) := by
  refine ⟨rfl, rfl, ?_⟩
  intro e v h
  cases hs : e.stats with
  | none => rw [normalizeVideoEntry, hs] at h; simp at h
  | some cell =>
    cases cell with
    | plain => rw [normalizeVideoEntry, hs] at h; simp at h
    | withAttrs vw =>
      rw [normalizeVideoEntry, hs] at h
      rw [Except.ok.injEq] at h
      subst h
      refine ⟨rfl, ?_⟩
      intro hstats
      simp only [Option.some.injEq, StatsCell.withAttrs.injEq] at hstats
      subst hstats
      rfl

def c7entOk : VideoEntry :=
  { id := "yt:video:bbb", ytVideoId := "bbb", title := "U", authorName := "Ch",
    published := "2024-01-02", stats := some (.withAttrs none) }

def c7item : VideoItem :=
  { id := "yt:video:bbb", videoId := "bbb", title := "U",
    thumbnail := "https://i.ytimg.com/vi/bbb/mqdefault.jpg",
    channelName := "Ch", published := "2024-01-02", views := "0" }

/-- C7 (witness for the universally quantified conjunct). -/
theorem video_stats_absent_behavior_witness :
    c7item.thumbnail = "https://i.ytimg.com/vi/" ++ c7entOk.ytVideoId ++ "/mqdefault.jpg" ∧
    (c7entOk.stats = some (.withAttrs none) → c7item.views = "0") :=
  video_stats_absent_behavior.2.2 c7entOk c7item rfl

/-! ### C8: enrichment scope and frame -/

lemma enrichOne_needsImage_false (og : String → OGOutcome) (it : NewsItem)
    (h : it.link ≠ "") : (enrichOne og it).needsImage = false := by
  unfold enrichOne
  by_cases hn : it.needsImage = true
  · have hl : (it.link == "") = false := by simp [h]
    simp [hn, hl]
  · rw [Bool.not_eq_true] at hn
    simp [hn]

/-- C8: the enrichment pass maps over exactly the paginated page; unflagged
items pass through unchanged; a flagged item keeps all fields except `image`
(set to the fetched Open-Graph value or `""`) and `needsImage` (cleared);
and every enrichment-fetch failure — network error, bad status, or absent
`og:image` tag — resolves to no image rather than an exception. -/
theorem enrichment_page_scope_and_frame :
    (∀ (pd : String → Option Int) (og : String → OGOutcome)
        (srcs : List NewsFetchOutcome) (offset limit : Nat),
      (newsGET pd og srcs offset limit).items =
        (((newsAggregate pd srcs).drop offset).take limit).map (enrichOne og)) ∧
    (∀ (og : String → OGOutcome) (it : NewsItem),
      it.needsImage = false → enrichOne og it = it) ∧
    (∀ (og : String → OGOutcome) (it : NewsItem),
      it.needsImage = true → it.link ≠ "" →
      (enrichOne og it).title = it.title ∧
      (enrichOne og it).link = it.link ∧
      (enrichOne og it).description = it.description ∧
      (enrichOne og it).pubDate = it.pubDate ∧
      (enrichOne og it).guid = it.guid ∧
      (enrichOne og it).domain = it.domain ∧
      (enrichOne og it).image = (fetchOGImageFromPage (og it.link)).getD "" ∧
      (enrichOne og it).needsImage = false) ∧
    (fetchOGImageFromPage .netErr = none ∧
      (∀ code : Nat, fetchOGImageFromPage (.badStatus code) = none) ∧
      fetchOGImageFromPage (.page none) = none) := by
  refine ⟨?_, ?_, ?_, rfl, fun code => rfl, rfl⟩
  · intro pd og srcs offset limit
    simp [newsGET, jsSlice_add]
  · intro og it h
    simp [enrichOne, h]
  · intro og it h1 h2
    have hl : (it.link == "") = false := by simp [h2]
    refine ⟨?_, ?_, ?_, ?_, ?_, ?_, ?_, ?_⟩ <;>
      simp [enrichOne, h1, hl] <;>
      rcases fetchOGImageFromPage (og it.link) with _ | s <;> rfl

def c8item : NewsItem :=
  { title := "A", link := "http://a", description := "", pubDate := "d1",
    guid := "", image := "", domain := "ex.com", needsImage := true }

/-- C8 (witness for the flagged-item frame conjunct). -/
theorem enrichment_page_scope_and_frame_witness :
    (enrichOne c1og c8item).title = c8item.title ∧
    (enrichOne c1og c8item).link = c8item.link ∧
    (enrichOne c1og c8item).description = c8item.description ∧
    (enrichOne c1og c8item).pubDate = c8item.pubDate ∧
    (enrichOne c1og c8item).guid = c8item.guid ∧
    (enrichOne c1og c8item).domain = c8item.domain ∧
    (enrichOne c1og c8item).image = (fetchOGImageFromPage (c1og c8item.link)).getD "" ∧
    (enrichOne c1og c8item).needsImage = false :=
  enrichment_page_scope_and_frame.2.2.1 c1og c8item rfl (by decide)

/-! ### C9: the needsImage flag in the response -/

/-- C9 is false: the `needsImage` key is part of every serialized response
item — `{...item, needsImage: false}` keeps the property and `JSON.stringify`
does not drop a `false` boolean — so the flag is consumed by the enrichment
pass but not absent from the final JSON. -/
theorem needs_image_key_in_response :
    ((newsGET c1pd c1og c1srcs 0 30).items.map
        (fun it => (newsItemJson it).map Prod.fst)) =
      [["title", "link", "description", "pubDate", "guid", "image",
        "domain", "needsImage"]] := by
  rfl

/-- C9 (amended): the flag is present in every response item but always
`false` there: items flagged at parse time are cleared by the enrichment
pass (their link is non-empty, because flagging requires it and the feed
filter enforces it), and unflagged items were already `false`. -/
theorem needs_image_always_false_amended :
    ∀ (pd : String → Option Int) (og : String → OGOutcome)
      (srcs : List NewsFetchOutcome) (offset limit : Nat) (it : NewsItem),
      it ∈ (newsGET pd og srcs offset limit).items → it.needsImage = false := by
  intro pd og srcs offset limit it h
  rw [newsGET] at h
  simp only [List.mem_map] at h
  obtain ⟨x, hx, rfl⟩ := h
  have hmem : x ∈ newsAggregate pd srcs :=
    List.mem_of_mem_drop (List.mem_of_mem_take hx)
  obtain ⟨o, _, ho⟩ := mem_newsAggregate pd srcs x hmem
  exact enrichOne_needsImage_false og x (mem_fetchRSSFeed o x ho).2

def c9item : NewsItem :=
  { title := "A", link := "http://a", description := "", pubDate := "d1",
    guid := "", image := "http://img.png", domain := "ex.com",
    needsImage := false }

/-- C9 (witness for the amended theorem). -/
theorem needs_image_always_false_amended_witness :
    c9item.needsImage = false :=
  needs_image_always_false_amended c1pd c1og c1srcs 0 30 c9item (by decide)

/-! ### C10: price chains exist only for pickaboo/daraz -/

/-- C10: the selector fallback chains are only consulted for domains
containing `"pickaboo"` or `"daraz"`; a product scraped from any other
domain carries the sentinel price whatever its page contains. -/
theorem price_sentinel_for_other_domains :
    ∀ (out : ScrapeOutcome) (url domain : String) (p : Product),
      jsIncludes domain "pickaboo" = false → jsIncludes domain "daraz" = false →
      scrapeProductDataFast out url domain = some p →
      p.price = "Price not available" := by
  intro out url domain p h1 h2 h
  obtain ⟨_, _, page, rfl, hp⟩ := scrapeProduct_fields out url domain p h
  rw [hp]
  simp [extractPrice, h1, h2]

def c10page : ProductPage :=
  { ogTitleProp := "Gadget Y", ogTitleName := "", titleText := "",
    ogDescProp := "", ogDescName := "", metaDesc := "",
    ogImageProp := "", ogImageName := "", selText := fun _ => "৳ 500" }

def c10prod : Product :=
  (scrapeProductDataFast (.ok c10page) "http://e/1" "example.com").getD emptyProduct

/-- C10 (witness): a page that does show a taka price on a non-configured
domain still yields the sentinel. -/
theorem price_sentinel_for_other_domains_witness :
    c10prod.price = "Price not available" :=
  price_sentinel_for_other_domains (.ok c10page) "http://e/1" "example.com" c10prod
    (by decide) (by decide) (by decide)
